import Mathlib

/-!
# BlockMed: the command layer of `src/Healthcare.js`

A shallow embedding of the `Healthcare` component's control flow: the wallet
connection run at start-up (`connectWallet`) and the three commands bound to the
buttons (`fetchPatientRecords`, `addRecord`, `authorizeProvider`, with the
helper `checkIfAuthorized`).

* React state (`useState`) is a `Session` record; a command maps the session it
  was invoked on to the session left once all of its continuations have run.
* Everything a command does to the outside is recorded, in order, in a list of
  `Event`s: method calls on the ethers contract object, `tx.wait()`,
  `console.error`, `toast.error`, `toast.success`.
* The outside world is a pair of records of responses, `Wallet` and `Ledger`.
  A rejected promise or a thrown exception is `Except.error msg`, where `msg`
  is `error.message`.  Within one command every contract method is called at
  most once, so one response per operation covers every behaviour of the
  remote inside a command.
* `parseInt(text, 10)` follows ECMAScript: leading white space is skipped, one
  optional sign is read, then the longest run of decimal digits; no digit
  gives `NaN` (`none`).  The result is kept as the exact integer; the rounding
  of values beyond 2^53 to a double is outside this model.
-/

namespace BlockMed

/-! ## Built-ins used by the component -/

/-- ECMAScript `WhiteSpace` and `LineTerminator` code points: what `parseInt`
skips at the start of its argument. -/
def isStrWhiteSpaceChar (c : Char) : Bool :=
  let n := c.toNat
  n == 0x09 || n == 0x0A || n == 0x0B || n == 0x0C || n == 0x0D || n == 0x20 ||
  n == 0xA0 || n == 0x1680 || (0x2000 ≤ n && n ≤ 0x200A) || n == 0x2028 ||
  n == 0x2029 || n == 0x202F || n == 0x205F || n == 0x3000 || n == 0xFEFF

/-- The radix-10 digits `0` .. `9`. -/
def isDecimalDigit (c : Char) : Bool := 48 ≤ c.toNat && c.toNat ≤ 57

/-- Value of a run of decimal digits, most significant first. -/
def digitsValue (ds : List Char) : Nat :=
  ds.foldl (fun acc c => 10 * acc + (c.toNat - 48)) 0

/-- `parseInt(s, 10)`; `none` is `NaN`. -/
def parseInt (s : String) : Option Int :=
  let t := s.toList.dropWhile isStrWhiteSpaceChar
  let neg := t.head? == some '-'
  let body := if t.head? == some '-' || t.head? == some '+' then t.tail else t
  let z := body.takeWhile isDecimalDigit
  if z.isEmpty then none
  else some (if neg then -(digitsValue z : Int) else (digitsValue z : Int))

/-- `String.prototype.toLowerCase` on the ASCII range, which is where account
addresses (`0x` followed by hexadecimal digits) live. -/
def toLowerCase (s : String) : String := String.mk (s.toList.map Char.toLower)

/-- Message of the `TypeError` raised by reading a member of `null`, as when a
command runs while `contract` is still `null`. -/
def nullReadMessage (member : String) : String :=
  "Cannot read properties of null (reading '" ++ member ++ "')"

/-! ## Data model -/

/-- One element of the array returned by `getPatientRecords` (the ABI tuple). -/
structure Record where
  recordID : Nat
  patientName : String
  diagnosis : String
  treatment : String
  timestamp : Nat
deriving DecidableEq, Repr

/-- A non-null object held in state whose content the component never
inspects (the provider, the signer, the contract object). -/
inductive Handle where
  | bound
deriving DecidableEq, Repr

/-- The `useState` cells of `Healthcare` (lines 14 to 24); `none` is `null`. -/
structure Session where
  provider : Option Handle
  signer : Option Handle
  contract : Option Handle
  account : Option String
  isOwner : Option Bool
  patientID : String
  diagnosis : String
  name : String
  treatment : String
  patientRecords : List Record
  providerAddress : String
deriving DecidableEq, Repr

/-- The initial values passed to `useState`. -/
def Session.empty : Session :=
  { provider := none, signer := none, contract := none, account := none,
    isOwner := none, patientID := "", diagnosis := "", name := "",
    treatment := "", patientRecords := [], providerAddress := "" }

/-- JavaScript truthiness of the `isOwner` cell (`null` and `false` are falsy). -/
def truthyOwner : Option Bool → Bool
  | some true => true
  | _ => false

/-- What a resolved contract call hands back where the code treats it as a
transaction: its truthiness (used by `checkIfAuthorized`) and the outcome of
`wait()` on it. -/
structure TxResponse where
  truthy : Bool
  wait : Except String Unit

/-- Responses of the four methods of the contract object built from
`contractABI` at `contractAddress`. -/
structure Ledger where
  getOwner : Except String String
  getPatientRecords : Int → Except String (List Record)
  addRecord : Int → String → String → String → Except String TxResponse
  authorizeProvider : Option String → Except String TxResponse

/-- Responses of the wallet side of `connectWallet`: constructing the
`Web3Provider` over `window.ethereum`, the `eth_requestAccounts` request and
`signer.getAddress()`. -/
structure Wallet where
  web3Provider : Except String Unit
  requestAccounts : Except String Unit
  getAddress : Except String String

/-- Observable actions of a command, in program order. -/
inductive Event where
  | callGetOwner
  | callGetPatientRecords (patientID : Int)
  | callAuthorizeProvider (target : Option String)
  | callAddRecord (patientID : Int) (name diagnosis treatment : String)
  | txWait
  | consoleError (label : String) (message : String)
  | toastError (message : String)
  | toastSuccess (message : String)
deriving DecidableEq, Repr

/-- A method call on the contract object. -/
def Event.isRemoteCall : Event → Bool
  | .callGetOwner => true
  | .callGetPatientRecords _ => true
  | .callAuthorizeProvider _ => true
  | .callAddRecord _ _ _ _ => true
  | _ => false

/-- A call of a method whose ABI entry has `stateMutability: "nonpayable"`
(`addRecord`, lines 29 to 40, and `authorizeProvider`, lines 41 to 47). -/
def Event.isMutatingCall : Event → Bool
  | .callAuthorizeProvider _ => true
  | .callAddRecord _ _ _ _ => true
  | _ => false

/-- A call of the contract method `addRecord`. -/
def Event.isAddRecordCall : Event → Bool
  | .callAddRecord _ _ _ _ => true
  | _ => false

/-- A toast of either kind. -/
def Event.isNotification : Event → Bool
  | .toastError _ => true
  | .toastSuccess _ => true
  | _ => false

/-- A `toast.success`. -/
def Event.isSuccessToast : Event → Bool
  | .toastSuccess _ => true
  | _ => false

/-! ## Messages -/

/-- Text of the toast shown when `parseInt` gives `NaN` (lines 112 and 146). -/
def validationMessage : String :=
  "Please enter a valid Patient ID (must be a number)."

/-- Text of the toast shown when the authorization probe is falsy (line 130). -/
def notAuthorizedMessage : String :=
  "You are not authorized to add records. Please contact the contract owner."

/-- Text of the toast shown to a non-owner by `authorizeProvider` (line 180). -/
def ownerOnlyMessage : String := "Only contract owner can call this function"

/-- The `catch` block of `connectWallet` (lines 100 and 101). -/
def connectFailure (message : String) : List Event :=
  [.consoleError "Error connecting to wallet: " message,
   .toastError ("Error connecting to wallet: " ++ message)]

/-- The `catch` block of `fetchPatientRecords` (lines 120 and 121). -/
def fetchFailure (message : String) : List Event :=
  [.consoleError "Error fetching patient records" message,
   .toastError ("Error fetching patient records: " ++ message)]

/-- The `catch` block of `checkIfAuthorized` (lines 135 and 136). -/
def checkFailure (message : String) : List Event :=
  [.consoleError "Error checking authorization" message,
   .toastError ("Error checking authorization: " ++ message)]

/-- The `catch` block of `addRecord` (lines 164 and 165). -/
def addFailure (message : String) : List Event :=
  [.consoleError "Error adding records" message,
   .toastError ("Error adding records: " ++ message)]

/-- The `catch` block of `authorizeProvider` (lines 176 and 177). -/
def authorizeFailure (message : String) : List Event :=
  [.consoleError "Error authorizing provider" message,
   .toastError ("Error authorizing provider: " ++ message)]

/-! ## The component's functions -/

/-- `connectWallet` (lines 79 to 103).  Each `set...` call is applied where the
source makes it, so a failure keeps whatever was set before it. -/
def connectWallet (w : Wallet) (l : Ledger) (s : Session) : Session × List Event :=
  match w.web3Provider with
  | .error m => (s, connectFailure m)
  | .ok _ =>
    match w.requestAccounts with
    | .error m => (s, connectFailure m)
    | .ok _ =>
      let s1 := { s with provider := some .bound, signer := some .bound }
      match w.getAddress with
      | .error m => (s1, connectFailure m)
      | .ok accountAddress =>
        let s2 := { s1 with account := some accountAddress, contract := some .bound }
        match l.getOwner with
        | .error m => (s2, .callGetOwner :: connectFailure m)
        | .ok ownerAddress =>
          ({ s2 with
              isOwner := some (decide (toLowerCase accountAddress = toLowerCase ownerAddress)) },
           [.callGetOwner])

/-- `fetchPatientRecords` (lines 107 to 123).  `whileAwaiting` is what the
caller does while this function is suspended at its `await`: nothing when the
function is a button handler, the rest of `addRecord` when `addRecord` calls it
without `await` (line 161).  When the function finishes without reaching the
`await`, the caller's actions follow it. -/
def fetchPatientRecords (l : Ledger) (s : Session) (whileAwaiting : List Event) :
    Session × List Event :=
  match parseInt s.patientID with
  | none => (s, .toastError validationMessage :: whileAwaiting)
  | some patientIDNumber =>
    match s.contract with
    | none => (s, fetchFailure (nullReadMessage "getPatientRecords") ++ whileAwaiting)
    | some _ =>
      match l.getPatientRecords patientIDNumber with
      | .ok records =>
        ({ s with patientRecords := records },
         .callGetPatientRecords patientIDNumber :: whileAwaiting)
      | .error m =>
        (s, .callGetPatientRecords patientIDNumber :: (whileAwaiting ++ fetchFailure m))

/-- `checkIfAuthorized` (lines 125 to 139): the truthiness of what it returns,
and what it did. -/
def checkIfAuthorized (l : Ledger) (s : Session) : Bool × List Event :=
  match s.contract with
  | none => (false, checkFailure (nullReadMessage "authorizeProvider"))
  | some _ =>
    match l.authorizeProvider s.account with
    | .error m => (false, .callAuthorizeProvider s.account :: checkFailure m)
    | .ok isAuthorized =>
      if isAuthorized.truthy then (true, [.callAuthorizeProvider s.account])
      else (false, [.callAuthorizeProvider s.account, .toastError notAuthorizedMessage])

/-- `addRecord` (lines 141 to 167). -/
def addRecord (l : Ledger) (s : Session) : Session × List Event :=
  match parseInt s.patientID with
  | none => (s, [.toastError validationMessage])
  | some patientIDNumber =>
    let check := checkIfAuthorized l s
    if !check.1 then (s, check.2)
    else
      match s.contract with
      | none => (s, check.2 ++ addFailure (nullReadMessage "addRecord"))
      | some _ =>
        let call := Event.callAddRecord patientIDNumber s.name s.diagnosis s.treatment
        match l.addRecord patientIDNumber s.name s.diagnosis s.treatment with
        | .error m => (s, check.2 ++ call :: addFailure m)
        | .ok tx =>
          match tx.wait with
          | .error m => (s, check.2 ++ call :: .txWait :: addFailure m)
          | .ok _ =>
            let refetch := fetchPatientRecords l s [.toastSuccess "Record added successfully"]
            (refetch.1, check.2 ++ call :: .txWait :: refetch.2)

/-- `authorizeProvider` (lines 169 to 182). -/
def authorizeProvider (l : Ledger) (s : Session) : Session × List Event :=
  if truthyOwner s.isOwner then
    match s.contract with
    | none => (s, authorizeFailure (nullReadMessage "authorizeProvider"))
    | some _ =>
      let call := Event.callAuthorizeProvider (some s.providerAddress)
      match l.authorizeProvider (some s.providerAddress) with
      | .error m => (s, call :: authorizeFailure m)
      | .ok tx =>
        match tx.wait with
        | .error m => (s, call :: .txWait :: authorizeFailure m)
        | .ok _ =>
          (s, [call, .txWait,
               .toastSuccess ("Provider " ++ s.providerAddress ++ " authorized successfully")])
  else (s, [.toastError ownerOnlyMessage])

/-! ## Concrete worlds and sessions used at the examples -/

/-- A transaction that is truthy and whose `wait()` resolves. -/
def minedTx : TxResponse := { truthy := true, wait := .ok () }

/-- A probe result that is falsy. -/
def falsyReply : TxResponse := { truthy := false, wait := .error "tx.wait is not a function" }

/-- Two records of patient 42. -/
def sampleRecords : List Record :=
  [{ recordID := 1, patientName := "Ada", diagnosis := "flu", treatment := "rest",
     timestamp := 1700000000 },
   { recordID := 2, patientName := "Ada", diagnosis := "cough", treatment := "syrup",
     timestamp := 1700000500 }]

/-- A ledger owned by `0xABCDEF` that accepts every call and holds
`sampleRecords` for patient 42. -/
def openLedger : Ledger :=
  { getOwner := .ok "0xABCDEF"
    getPatientRecords := fun n => .ok (if n = 42 then sampleRecords else [])
    addRecord := fun _ _ _ _ => .ok minedTx
    authorizeProvider := fun _ => .ok minedTx }

/-- A ledger whose `authorizeProvider` resolves to a falsy value. -/
def denyingLedger : Ledger :=
  { openLedger with authorizeProvider := fun _ => .ok falsyReply }

/-- A ledger that reverts `authorizeProvider`, as an owner-only contract does
for a caller that is not the owner. -/
def revertingLedger : Ledger :=
  { openLedger with authorizeProvider := fun _ => .error "execution reverted" }

/-- A ledger none of whose methods can be reached. -/
def downLedger : Ledger :=
  { getOwner := .error "network error"
    getPatientRecords := fun _ => .error "network error"
    addRecord := fun _ _ _ _ => .error "network error"
    authorizeProvider := fun _ => .error "network error" }

/-- A wallet that grants access to the account `0xabcdef`. -/
def goodWallet : Wallet :=
  { web3Provider := .ok (), requestAccounts := .ok (), getAddress := .ok "0xabcdef" }

/-- A connected, non-owner session with the given text in the patient field. -/
def connected (patientID : String) : Session :=
  { Session.empty with
    provider := some .bound, signer := some .bound, contract := some .bound,
    account := some "0x1234", isOwner := some false, patientID := patientID,
    name := "Ada", diagnosis := "flu", treatment := "rest" }

/-- A connected session that still shows `sampleRecords` from an earlier fetch. -/
def showing (patientID : String) : Session :=
  { connected patientID with patientRecords := sampleRecords }

/-! ## Auxiliary facts -/

/-- What `checkIfAuthorized` does never includes a call of the contract's
`addRecord` nor a `tx.wait()`. -/
theorem checkIfAuthorized_events (l : Ledger) (s : Session) :
    ∀ e ∈ (checkIfAuthorized l s).2, e.isAddRecordCall = false ∧ e ≠ Event.txWait := by
  unfold checkIfAuthorized
  cases s.contract with
  | none => simp [checkFailure, Event.isAddRecordCall]
  | some c =>
    cases h : l.authorizeProvider s.account with
    | error m => simp [checkFailure, Event.isAddRecordCall]
    | ok r => cases ht : r.truthy <;> simp [ht, Event.isAddRecordCall]

/-- The probe passes exactly when the contract is bound and its
`authorizeProvider` resolved to a truthy value. -/
theorem checkIfAuthorized_true_iff (l : Ledger) (s : Session) :
    (checkIfAuthorized l s).1 = true ↔
      s.contract ≠ none ∧ ∃ r, l.authorizeProvider s.account = .ok r ∧ r.truthy = true := by
  unfold checkIfAuthorized
  cases s.contract with
  | none => simp
  | some c =>
    cases h : l.authorizeProvider s.account with
    | error m => simp
    | ok r => cases ht : r.truthy <;> simp [ht]

/-- Whenever the probe passes it has called the contract's `authorizeProvider`
on the session's account, and done nothing else. -/
theorem checkIfAuthorized_true_events (l : Ledger) (s : Session)
    (h : (checkIfAuthorized l s).1 = true) :
    (checkIfAuthorized l s).2 = [Event.callAuthorizeProvider s.account] := by
  revert h
  unfold checkIfAuthorized
  cases s.contract with
  | none => simp
  | some c =>
    cases h : l.authorizeProvider s.account with
    | error m => simp
    | ok r => cases ht : r.truthy <;> simp [ht]

/-! ## Input validation -/

/-- C1: when `parseInt` of the patientID text gives `NaN`, `fetchPatientRecords`
and `addRecord` both leave the session as it was and do exactly one thing, a
`toast.error` with the validation message; in particular neither calls any
method of the contract. -/
theorem invalid_patientID_stays_local (l : Ledger) (s : Session)
    (h : parseInt s.patientID = none) :
    fetchPatientRecords l s [] = (s, [Event.toastError validationMessage]) ∧
    addRecord l s = (s, [Event.toastError validationMessage]) := by
  constructor
  · simp [fetchPatientRecords, h]
  · simp [addRecord, h]

/-- The empty text, white space alone, a word, a lone sign and a doubled sign
all parse to `NaN`. -/
theorem parseInt_nan_samples :
    parseInt "" = none ∧ parseInt "  \t " = none ∧ parseInt "abc" = none ∧
    parseInt "-" = none ∧ parseInt "+-3" = none ∧ parseInt ".5" = none := by
  decide

/-- C1 at the text `abc` on a connected session in front of a ledger that would
accept any call. -/
theorem invalid_patientID_stays_local_witness :
    parseInt (connected "abc").patientID = none ∧
    fetchPatientRecords openLedger (connected "abc") [] =
      (connected "abc", [Event.toastError validationMessage]) ∧
    addRecord openLedger (connected "abc") =
      (connected "abc", [Event.toastError validationMessage]) :=
  ⟨by decide, invalid_patientID_stays_local openLedger (connected "abc") (by decide)⟩

/-- C2: the texts `12abc`, `3.7` and `7 8` are no integer literals, yet
`fetchPatientRecords` calls `getPatientRecords` with 12, 3 and 7 and shows no
validation message, and `addRecord` on `12abc` submits a record for patient 12. -/
theorem trailing_text_reaches_ledger :
    (fetchPatientRecords openLedger (connected "12abc") []).2 =
      [Event.callGetPatientRecords 12] ∧
    (fetchPatientRecords openLedger (connected "3.7") []).2 =
      [Event.callGetPatientRecords 3] ∧
    (fetchPatientRecords openLedger (connected "7 8") []).2 =
      [Event.callGetPatientRecords 7] ∧
    Event.callAddRecord 12 "Ada" "flu" "rest" ∈ (addRecord openLedger (connected "12abc")).2 := by
  decide

/-! ## Authorization gates -/

/-- C3: in every run of `addRecord`, a call of the contract's `addRecord` is
preceded in the same run by a `checkIfAuthorized` that returned a truthy value;
when the probe returns a falsy value, which it does whenever its contract call
fails, the contract's `addRecord` is not called and no `tx.wait()` happens. -/
theorem addRecord_call_needs_passed_check (l : Ledger) (s : Session) :
    ((∃ e ∈ (addRecord l s).2, e.isAddRecordCall = true) →
      (checkIfAuthorized l s).1 = true ∧
      ∃ n rest, parseInt s.patientID = some n ∧
        (addRecord l s).2 = (checkIfAuthorized l s).2 ++
          Event.callAddRecord n s.name s.diagnosis s.treatment :: rest) ∧
    ((checkIfAuthorized l s).1 = false →
      (∀ e ∈ (addRecord l s).2, e.isAddRecordCall = false) ∧
      Event.txWait ∉ (addRecord l s).2) ∧
    (∀ m, l.authorizeProvider s.account = .error m → (checkIfAuthorized l s).1 = false) := by
  have hev := checkIfAuthorized_events l s
  refine ⟨?_, ?_, ?_⟩
  · intro hcall
    unfold addRecord at hcall ⊢
    cases hp : parseInt s.patientID with
    | none => simp [hp, Event.isAddRecordCall] at hcall
    | some n =>
      cases hc : (checkIfAuthorized l s).1 with
      | false =>
        simp only [hp, hc] at hcall
        obtain ⟨e, he, hadd⟩ := hcall
        have := (hev e (by simpa using he)).1
        simp [this] at hadd
      | true =>
        refine ⟨rfl, n, ?_⟩
        cases hk : s.contract with
        | none =>
          have := (checkIfAuthorized_true_iff l s).1 hc
          exact absurd hk this.1
        | some c =>
          cases ha : l.addRecord n s.name s.diagnosis s.treatment with
          | error m => exact ⟨addFailure m, rfl, by simp [hc, ha]⟩
          | ok tx =>
            cases hw : tx.wait with
            | error m => exact ⟨Event.txWait :: addFailure m, rfl, by simp [hc, ha, hw]⟩
            | ok u =>
              exact ⟨Event.txWait ::
                (fetchPatientRecords l s [Event.toastSuccess "Record added successfully"]).2,
                rfl, by simp [hc, ha, hw]⟩
  · intro hc
    unfold addRecord
    cases hp : parseInt s.patientID with
    | none => simp [Event.isAddRecordCall]
    | some n =>
      simp only [hc]
      exact ⟨fun e he => (hev e (by simpa using he)).1,
        fun hmem => (hev _ (by simpa using hmem)).2 rfl⟩
  · intro m hm
    unfold checkIfAuthorized
    cases s.contract with
    | none => rfl
    | some c => simp [hm]

/-- C3 on two concrete runs: in front of `openLedger` the contract's `addRecord`
is called and the probe had passed; in front of `denyingLedger` the probe is
falsy and the run holds neither that call nor a wait. -/
theorem addRecord_call_needs_passed_check_witness :
    (checkIfAuthorized openLedger (connected "42")).1 = true ∧
    ((checkIfAuthorized denyingLedger (connected "42")).1 = false ∧
      (∀ e ∈ (addRecord denyingLedger (connected "42")).2, e.isAddRecordCall = false) ∧
      Event.txWait ∉ (addRecord denyingLedger (connected "42")).2) :=
  ⟨((addRecord_call_needs_passed_check openLedger (connected "42")).1
      ⟨Event.callAddRecord 42 "Ada" "flu" "rest", by decide, rfl⟩).1,
   by decide,
   (addRecord_call_needs_passed_check denyingLedger (connected "42")).2.1 (by decide)⟩

/-- C4: `addRecord` with the valid text `42` from an account for which the
probe yields false, whether the contract's answer is falsy or the call is
reverted, does not reach the contract's `addRecord`, but the run has called the
contract's `authorizeProvider`, a method the ABI declares `nonpayable`, on the
caller's own account. -/
theorem unauthorized_addRecord_calls_mutating_method :
    parseInt (connected "42").patientID = some 42 ∧
    (checkIfAuthorized denyingLedger (connected "42")).1 = false ∧
    (addRecord denyingLedger (connected "42")).2 =
      [Event.callAuthorizeProvider (some "0x1234"), Event.toastError notAuthorizedMessage] ∧
    ((addRecord denyingLedger (connected "42")).2.filter Event.isMutatingCall).length = 1 ∧
    (checkIfAuthorized revertingLedger (connected "42")).1 = false ∧
    (addRecord revertingLedger (connected "42")).2 =
      Event.callAuthorizeProvider (some "0x1234") :: checkFailure "execution reverted" ∧
    ((addRecord revertingLedger (connected "42")).2.filter Event.isMutatingCall).length = 1 := by
  decide

/-- C5: the command `authorizeProvider` calls a contract method only when
`isOwner` is `true`; when `isOwner` is `false` or `null` the command leaves the
whole session as it was and does exactly one thing, a `toast.error`. -/
theorem authorizeProvider_owner_only (l : Ledger) (s : Session) :
    ((∃ e ∈ (authorizeProvider l s).2, e.isRemoteCall = true) → s.isOwner = some true) ∧
    (s.isOwner ≠ some true →
      authorizeProvider l s = (s, [Event.toastError ownerOnlyMessage])) := by
  unfold authorizeProvider
  rcases ho : s.isOwner with _ | _ | _
  · simp [truthyOwner, Event.isRemoteCall]
  · simp [truthyOwner, Event.isRemoteCall]
  · simp [truthyOwner]

/-- C5 on a non-owner session and on a session whose `isOwner` is still `null`,
in front of a ledger that would accept the call. -/
theorem authorizeProvider_owner_only_witness :
    authorizeProvider openLedger (connected "42") =
      (connected "42", [Event.toastError ownerOnlyMessage]) ∧
    authorizeProvider openLedger Session.empty =
      (Session.empty, [Event.toastError ownerOnlyMessage]) :=
  ⟨(authorizeProvider_owner_only openLedger (connected "42")).2 (by decide),
   (authorizeProvider_owner_only openLedger Session.empty).2 (by decide)⟩

/-! ## The record set -/

/-- C6: when the patientID text parses to `n`, the contract is bound and
`getPatientRecords n` resolves to `rs`, `fetchPatientRecords` leaves the session
with `patientRecords` equal to `rs` as returned and every other cell as it
was, and the only thing it does is that one call: no toast is shown. -/
theorem fetch_success_replaces_records (l : Ledger) (s : Session) (n : Int)
    (rs : List Record) (hid : parseInt s.patientID = some n)
    (hc : s.contract = some Handle.bound) (hr : l.getPatientRecords n = .ok rs) :
    fetchPatientRecords l s [] =
      ({ s with patientRecords := rs }, [Event.callGetPatientRecords n]) ∧
    (fetchPatientRecords l s []).1.patientRecords = rs ∧
    ∀ e ∈ (fetchPatientRecords l s []).2, e.isNotification = false := by
  have h : fetchPatientRecords l s [] =
      ({ s with patientRecords := rs }, [Event.callGetPatientRecords n]) := by
    simp [fetchPatientRecords, hid, hc, hr]
  refine ⟨h, ?_, ?_⟩
  · rw [h]
  · rw [h]
    simp [Event.isNotification]

/-- C6 on Scenario A: the text `42` on a session still showing other records,
with the ledger returning the two `sampleRecords`. -/
theorem fetch_success_replaces_records_witness :
    (fetchPatientRecords openLedger
        { connected "42" with patientRecords := sampleRecords.reverse } []).1.patientRecords =
      sampleRecords ∧
    (fetchPatientRecords openLedger
        { connected "42" with patientRecords := sampleRecords.reverse } []).2 =
      [Event.callGetPatientRecords 42] :=
  have h := fetch_success_replaces_records openLedger
    { connected "42" with patientRecords := sampleRecords.reverse } 42 sampleRecords
    (by decide) (by decide) rfl
  ⟨h.2.1, by rw [h.1]⟩

/-- C7, the claim refuted: on a session showing `sampleRecords`, a fetch with
the text `abc` and a fetch whose `getPatientRecords` call is rejected both end
with `patientRecords` still equal to `sampleRecords`, which is not empty. -/
theorem failed_fetch_keeps_stale_records :
    parseInt (showing "abc").patientID = none ∧
    (fetchPatientRecords openLedger (showing "abc") []).1.patientRecords = sampleRecords ∧
    (fetchPatientRecords openLedger (showing "abc") []).1.patientRecords ≠ [] ∧
    downLedger.getPatientRecords 42 = .error "network error" ∧
    (fetchPatientRecords downLedger (showing "42") []).1.patientRecords = sampleRecords ∧
    (fetchPatientRecords downLedger (showing "42") []).1.patientRecords ≠ [] :=
  ⟨by decide, by decide, by decide, rfl, by decide, by decide⟩

/-- C7 as amended: a `fetchPatientRecords` that fails, because the text parses
to `NaN`, because the contract is not bound, or because `getPatientRecords`
is rejected, leaves the whole session, `patientRecords` included, as it was. -/
theorem failed_fetch_leaves_session (l : Ledger) (s : Session) (whileAwaiting : List Event)
    (h : parseInt s.patientID = none ∨ s.contract = none ∨
      ∃ n m, parseInt s.patientID = some n ∧ l.getPatientRecords n = .error m) :
    (fetchPatientRecords l s whileAwaiting).1 = s ∧
    (fetchPatientRecords l s whileAwaiting).1.patientRecords = s.patientRecords := by
  have h1 : (fetchPatientRecords l s whileAwaiting).1 = s := by
    unfold fetchPatientRecords
    rcases h with h | h | ⟨n, m, hp, hr⟩
    · simp [h]
    · cases hp : parseInt s.patientID <;> simp [h]
    · cases hc : s.contract <;> simp [hp, hr]
  exact ⟨h1, by rw [h1]⟩

/-- C7 as amended, on the two failing fetches of the refutation. -/
theorem failed_fetch_leaves_session_witness :
    (fetchPatientRecords openLedger (showing "abc") []).1 = showing "abc" ∧
    (fetchPatientRecords downLedger (showing "42") []).1 = showing "42" :=
  ⟨(failed_fetch_leaves_session openLedger (showing "abc") [] (Or.inl (by decide))).1,
   (failed_fetch_leaves_session downLedger (showing "42") []
      (Or.inr (Or.inr ⟨42, "network error", by decide, rfl⟩))).1⟩

/-! ## A successful `addRecord` -/

/-- Every run of `addRecord` in which the probe passes, the contract accepts
the record and `wait()` resolves starts with the probe's call of the
contract's `authorizeProvider`, then the contract's `addRecord`, then the wait,
then the re-fetch's `getPatientRecords` for the same number, then the success
toast. -/
theorem successful_addRecord_trace (l : Ledger) (s : Session) (n : Int) (tx : TxResponse)
    (hid : parseInt s.patientID = some n) (hcheck : (checkIfAuthorized l s).1 = true)
    (hadd : l.addRecord n s.name s.diagnosis s.treatment = .ok tx) (hwait : tx.wait = .ok ()) :
    ∃ rest, (addRecord l s).2 =
      [Event.callAuthorizeProvider s.account,
       Event.callAddRecord n s.name s.diagnosis s.treatment, Event.txWait,
       Event.callGetPatientRecords n, Event.toastSuccess "Record added successfully"] ++ rest := by
  have hev := checkIfAuthorized_true_events l s hcheck
  obtain ⟨hk, -⟩ := (checkIfAuthorized_true_iff l s).1 hcheck
  obtain ⟨c, hc⟩ := Option.ne_none_iff_exists'.1 hk
  cases hg : l.getPatientRecords n with
  | ok rs =>
    exact ⟨[], by simp [addRecord, fetchPatientRecords, hid, hcheck, hc, hadd, hwait, hg, hev]⟩
  | error m =>
    exact ⟨fetchFailure m, by
      simp [addRecord, fetchPatientRecords, hid, hcheck, hc, hadd, hwait, hg, hev]⟩

/-- C8: a successful `addRecord` for the text `42` calls two methods the ABI
declares `nonpayable`, `authorizeProvider` (as the probe) and `addRecord`, not
one; it waits once, calls `getPatientRecords 42` once and shows one success
toast, issued after that call and before its result is stored. -/
theorem successful_addRecord_calls_two_mutating_methods :
    (addRecord openLedger (connected "42")).2 =
      [Event.callAuthorizeProvider (some "0x1234"),
       Event.callAddRecord 42 "Ada" "flu" "rest", Event.txWait,
       Event.callGetPatientRecords 42, Event.toastSuccess "Record added successfully"] ∧
    ((addRecord openLedger (connected "42")).2.filter Event.isMutatingCall).length = 2 ∧
    (addRecord openLedger (connected "42")).2.count Event.txWait = 1 ∧
    (addRecord openLedger (connected "42")).2.count (Event.callGetPatientRecords 42) = 1 ∧
    ((addRecord openLedger (connected "42")).2.filter Event.isSuccessToast).length = 1 ∧
    (addRecord openLedger (connected "42")).1.patientRecords = sampleRecords := by
  decide

/-! ## Ownership and connection -/

/-- C9: after a `connectWallet` in which every step succeeds, with account `a`
and ledger owner `o`, `isOwner` is `true` exactly when the lower-cased `a` and
`o` are equal and `false` otherwise; and none of `fetchPatientRecords`,
`addRecord`, `authorizeProvider` changes `isOwner`, whatever the session and
the ledger's answers. -/
theorem isOwner_only_from_owner_comparison (w : Wallet) (l : Ledger) (s : Session)
    (a o : String) (hp : w.web3Provider = .ok ()) (hr : w.requestAccounts = .ok ())
    (ha : w.getAddress = .ok a) (ho : l.getOwner = .ok o) :
    ((connectWallet w l s).1.isOwner = some true ↔ toLowerCase a = toLowerCase o) ∧
    ((connectWallet w l s).1.isOwner = some false ↔ toLowerCase a ≠ toLowerCase o) ∧
    (∀ (l2 : Ledger) (s2 : Session) (tail : List Event),
      (fetchPatientRecords l2 s2 tail).1.isOwner = s2.isOwner) ∧
    (∀ (l2 : Ledger) (s2 : Session), (addRecord l2 s2).1.isOwner = s2.isOwner) ∧
    (∀ (l2 : Ledger) (s2 : Session), (authorizeProvider l2 s2).1.isOwner = s2.isOwner) := by
  have hfetch : ∀ (l2 : Ledger) (s2 : Session) (tail : List Event),
      (fetchPatientRecords l2 s2 tail).1.isOwner = s2.isOwner := by
    intro l2 s2 tail
    unfold fetchPatientRecords
    repeat' split
    all_goals rfl
  refine ⟨?_, ?_, hfetch, ?_, ?_⟩
  · simp [connectWallet, hp, hr, ha, ho]
  · simp [connectWallet, hp, hr, ha, ho]
  · intro l2 s2
    unfold addRecord
    repeat' split
    all_goals first
      | rfl
      | (dsimp only
         split <;> first | rfl | exact hfetch l2 s2 _)
  · intro l2 s2
    unfold authorizeProvider
    repeat' split
    all_goals rfl

/-- C9 with the account `0xabcdef` and the owner `0xABCDEF`, which differ only
in letter case: the session ends with `isOwner` equal to `true`. -/
theorem isOwner_only_from_owner_comparison_witness :
    (connectWallet goodWallet openLedger Session.empty).1.isOwner = some true :=
  (isOwner_only_from_owner_comparison goodWallet openLedger Session.empty
    "0xabcdef" "0xABCDEF" rfl rfl rfl rfl).1.2 (by decide)

/-- C10, the claim refuted: when `getOwner` is rejected after the account was
obtained, one connection-failure toast is shown but the session is not the
empty one: provider, signer, account and contract stay set. -/
theorem failed_connect_keeps_bindings :
    (connectWallet goodWallet downLedger Session.empty).2 =
      Event.callGetOwner :: connectFailure "network error" ∧
    (connectWallet goodWallet downLedger Session.empty).1 ≠ Session.empty ∧
    (connectWallet goodWallet downLedger Session.empty).1.account = some "0xabcdef" ∧
    (connectWallet goodWallet downLedger Session.empty).1.signer = some Handle.bound ∧
    (connectWallet goodWallet downLedger Session.empty).1.contract = some Handle.bound := by
  decide

/-- C10 as amended: a `connectWallet` in which some step fails shows exactly
one toast, the connection failure carrying the message of the first failing
step, and leaves `isOwner` as it was; the session is wholly unchanged when the
provider cannot be built or access is refused, keeps provider and signer when
the address lookup fails, and keeps provider, signer, account and contract
when `getOwner` fails. -/
theorem failed_connect_outcome (w : Wallet) (l : Ledger) (s : Session)
    (hfail : (∃ m, w.web3Provider = .error m) ∨ (∃ m, w.requestAccounts = .error m) ∨
      (∃ m, w.getAddress = .error m) ∨ (∃ m, l.getOwner = .error m)) :
    (∃ m, (connectWallet w l s).2.filter Event.isNotification =
      [Event.toastError ("Error connecting to wallet: " ++ m)]) ∧
    (connectWallet w l s).1.isOwner = s.isOwner ∧
    (∀ m, w.web3Provider = .error m → connectWallet w l s = (s, connectFailure m)) ∧
    (∀ m, w.web3Provider = .ok () → w.requestAccounts = .error m →
      connectWallet w l s = (s, connectFailure m)) ∧
    (∀ m, w.web3Provider = .ok () → w.requestAccounts = .ok () → w.getAddress = .error m →
      connectWallet w l s =
        ({ s with provider := some Handle.bound, signer := some Handle.bound },
         connectFailure m)) ∧
    (∀ a m, w.web3Provider = .ok () → w.requestAccounts = .ok () → w.getAddress = .ok a →
      l.getOwner = .error m →
      connectWallet w l s =
        ({ s with provider := some Handle.bound, signer := some Handle.bound,
                  account := some a, contract := some Handle.bound },
         Event.callGetOwner :: connectFailure m)) := by
  refine ⟨?_, ?_, ?_, ?_, ?_, ?_⟩
  · unfold connectWallet
    cases hp : w.web3Provider with
    | error m => exact ⟨m, by simp [connectFailure, Event.isNotification]⟩
    | ok u =>
      cases hr : w.requestAccounts with
      | error m => exact ⟨m, by simp [connectFailure, Event.isNotification]⟩
      | ok u2 =>
        cases ha : w.getAddress with
        | error m => exact ⟨m, by simp [connectFailure, Event.isNotification]⟩
        | ok a =>
          cases ho : l.getOwner with
          | error m => exact ⟨m, by simp [connectFailure, Event.isNotification]⟩
          | ok o =>
            rcases hfail with ⟨m, h⟩ | ⟨m, h⟩ | ⟨m, h⟩ | ⟨m, h⟩
            · rw [hp] at h; cases h
            · rw [hr] at h; cases h
            · rw [ha] at h; cases h
            · rw [ho] at h; cases h
  · unfold connectWallet
    cases hp : w.web3Provider with
    | error m => rfl
    | ok u =>
      cases hr : w.requestAccounts with
      | error m => rfl
      | ok u2 =>
        cases ha : w.getAddress with
        | error m => rfl
        | ok a =>
          cases ho : l.getOwner with
          | error m => rfl
          | ok o =>
            rcases hfail with ⟨m, h⟩ | ⟨m, h⟩ | ⟨m, h⟩ | ⟨m, h⟩
            · rw [hp] at h; cases h
            · rw [hr] at h; cases h
            · rw [ha] at h; cases h
            · rw [ho] at h; cases h
  · intro m h
    simp [connectWallet, h]
  · intro m h1 h2
    simp [connectWallet, h1, h2]
  · intro m h1 h2 h3
    simp [connectWallet, h1, h2, h3]
  · intro a m h1 h2 h3 h4
    simp [connectWallet, h1, h2, h3, h4]

/-- C10 as amended, on the connect whose `getOwner` is rejected. -/
theorem failed_connect_outcome_witness :
    (connectWallet goodWallet downLedger Session.empty).1.isOwner = none ∧
    connectWallet goodWallet downLedger Session.empty =
      ({ Session.empty with provider := some Handle.bound, signer := some Handle.bound,
                            account := some "0xabcdef", contract := some Handle.bound },
       Event.callGetOwner :: connectFailure "network error") :=
  have h := failed_connect_outcome goodWallet downLedger Session.empty
    (Or.inr (Or.inr (Or.inr ⟨"network error", rfl⟩)))
  ⟨h.2.1, h.2.2.2.2.2 "0xabcdef" "network error" rfl rfl rfl rfl⟩

end BlockMed
